import Mathlib

/-!
Verification of the rcpputils dynamic-library path resolver
(src/src/find_library.cpp) and of the filesystem helper
`rcpputils::fs::remove_extension` (filesystem_helper.hpp).

The resolver is embedded shallowly: the preprocessor-selected platform
constants become a `Platform`-indexed table, the external state one call
reads (the process environment, the file-existence primitive
`rcutils_is_file`, the current working directory) becomes an explicit
`Env` record, and `find_library_path` becomes a pure function of both.
Strings are modelled as sequences of characters.
-/

/-- The three platform conventions selected by the preprocessor
(`_WIN32`, `__APPLE__`, otherwise) in find_library.cpp lines 42-57. -/
inductive Platform where
  | windows
  | apple
  | linux
  deriving DecidableEq

/-- kPathVar: the search-path environment variable name (find_library.cpp). -/
def kPathVar : Platform → String
  | Platform.windows => "PATH"
  | Platform.apple => "DYLD_LIBRARY_PATH"
  | Platform.linux => "LD_LIBRARY_PATH"

/-- kPathSeparator: the separator of the search-path variable's value. -/
def kPathSeparator : Platform → Char
  | Platform.windows => ';'
  | _ => ':'

/-- kSolibPrefix: the platform's shared-library filename pieces, as written. -/
def kSolibPrefix : Platform → String
  | Platform.windows => ""
  | _ => "lib"

/-- kSolibExtension: the platform's shared-library filename extension. -/
def kSolibExtension : Platform → String
  | Platform.windows => ".dll"
  | Platform.apple => ".dylib"
  | Platform.linux => ".so"

/-- The external state one call of find_library_path reads: the process
environment (`none` = variable unset), the file-existence primitive
`rcutils_is_file`, and the current working directory as
`GetCurrentDirectoryA` reports it (`none` = the retrieval fails). -/
structure Env where
  vars : String → Option String
  isFile : String → Bool
  cwd : Option String

/-- Modelled from the spec: rcpputils::get_env_var (its header
include/rcpputils/get_env.hpp is not among the sources) returns the
variable's value, or the empty string when the variable is unset, and
never raises. -/
def get_env_var (env : Env) (name : String) : String :=
  (env.vars name).getD ""

/-- Modelled from the spec: rcpputils::split (its header
include/rcpputils/split.hpp is not among the sources) splits on every
occurrence of the separator; consecutive separators produce empty
elements and empty input yields no elements (std::getline semantics: a
read that extracts no characters fails and appends nothing). -/
def splitAux (sep : Char) : List Char → List Char → List String
  | acc, [] => if acc.isEmpty then [] else [String.mk acc.reverse]
  | acc, c :: cs =>
    if c = sep then String.mk acc.reverse :: splitAux sep [] cs
    else splitAux sep (c :: acc) cs

/-- rcpputils::split on a whole string. -/
def split (input : String) (sep : Char) : List String :=
  splitAux sep [] input.data

/-- Whether a character is a directory separator of the platform
(std::filesystem: `/` everywhere, additionally `\` on Windows). -/
def is_separator (plat : Platform) (c : Char) : Bool :=
  c = '/' || (plat = Platform.windows && c = '\\')

/-- The platform's preferred directory separator. -/
def preferred_separator (plat : Platform) : Char :=
  if plat = Platform.windows then '\\' else '/'

/-- std::filesystem::path(dir) / filename followed by .string(), for a
relative filename without a root (the resolver's candidate filename has
none): the preferred separator is appended unless dir is empty or
already ends in a directory separator. -/
def pathJoin (plat : Platform) (dir filename : String) : String :=
  if dir.isEmpty then filename
  else if is_separator plat dir.back then dir ++ filename
  else dir ++ String.mk [preferred_separator plat] ++ filename

/-- The candidate filename built by find_library_path lines 79-80:
`filename = kSolibPrefix; filename += library_name + kSolibExtension`. -/
def candidate_filename (plat : Platform) (library_name : String) : String :=
  kSolibPrefix plat ++ (library_name ++ kSolibExtension plat)

/-- The ordered directory list one call probes: the split of the
search-path variable's value, with the current working directory
inserted at the front on Windows when its retrieval succeeds
(find_library.cpp lines 63-77). -/
def search_dirs (plat : Platform) (env : Env) : List String :=
  let search_paths := split (get_env_var env (kPathVar plat)) (kPathSeparator plat)
  if plat = Platform.windows then
    match env.cwd with
    | some dir => dir :: search_paths
    | none => search_paths
  else search_paths

/-- The search loop of find_library_path lines 82-88: the first directory
whose joined candidate path the file-existence primitive accepts wins;
an exhausted list yields the empty string. -/
def probe_dirs (isFile : String → Bool) (plat : Platform) (filename : String) :
    List String → String
  | [] => ""
  | dir :: rest =>
    if isFile (pathJoin plat dir filename) then pathJoin plat dir filename
    else probe_dirs isFile plat filename rest

/-- rcpputils::find_library_path (find_library.cpp lines 61-89). -/
def find_library_path (plat : Platform) (env : Env) (library_name : String) : String :=
  probe_dirs env.isFile plat (candidate_filename plat library_name) (search_dirs plat env)

/-- Index of the last occurrence of a character in a character sequence
(std::string::find_last_of with a single character; `none` plays npos). -/
def find_last_of : List Char → Char → Option Nat
  | [], _ => none
  | x :: xs, c =>
    match find_last_of xs c with
    | some k => some (k + 1)
    | none => if x = c then some 0 else none

/-- The loop of rcpputils::fs::remove_extension with the iteration count
already clamped to a natural number (`for (int i = 0; i < n_times; i++)`
runs max(n_times, 0) iterations). Each round truncates the string at its
last dot (`substr(0, last_dot)`); a round that finds no dot returns the
path unchanged at once. -/
def remove_extension_loop : Nat → String → String
  | 0, s => s
  | n + 1, s =>
    match find_last_of s.data '.' with
    | none => s
    | some k => remove_extension_loop n (String.mk (s.data.take k))

/-- rcpputils::fs::remove_extension (filesystem_helper.hpp lines 172-184
and its byte-identical duplicate at lines 444-456), on the path's string
representation. -/
def remove_extension (file_path : String) (n_times : Int) : String :=
  remove_extension_loop n_times.toNat file_path

example : split "" ':' = [] := by decide
example : split "a:b" ':' = ["a", "b"] := by decide
example : split "a::b:" ':' = ["a", "", "b"] := by decide
example : candidate_filename Platform.linux "foo" = "libfoo.so" := by decide
example : pathJoin Platform.linux "/opt" "libfoo.so" = "/opt/libfoo.so" := by decide
example : pathJoin Platform.linux "" "libfoo.so" = "libfoo.so" := by decide
example : remove_extension "a.tar.gz" 1 = "a.tar" := by decide
example : remove_extension "a.tar.gz" 2 = "a" := by decide
example : remove_extension "abc" 5 = "abc" := by decide
example : remove_extension "a.b" (-3) = "a.b" := by decide

/-! ## Helper lemmas -/

theorem string_append_ne_empty (a b : String) (h : b ≠ "") : a ++ b ≠ "" := by
  intro hc
  apply h
  have hd := congrArg String.data hc
  simp [String.data_append] at hd
  exact String.ext hd.2

theorem kSolibExtension_ne_empty (plat : Platform) : kSolibExtension plat ≠ "" := by
  cases plat <;> decide

theorem candidate_filename_ne_empty (plat : Platform) (library_name : String) :
    candidate_filename plat library_name ≠ "" :=
  string_append_ne_empty _ _ (string_append_ne_empty _ _ (kSolibExtension_ne_empty plat))

theorem pathJoin_ne_empty (plat : Platform) (dir filename : String)
    (h : filename ≠ "") : pathJoin plat dir filename ≠ "" := by
  unfold pathJoin
  split
  · exact h
  · split
    · exact string_append_ne_empty _ _ h
    · exact string_append_ne_empty _ _ h

theorem probe_dirs_eq_empty_iff (isFile : String → Bool) (plat : Platform)
    (filename : String) (hf : filename ≠ "") (dirs : List String) :
    probe_dirs isFile plat filename dirs = "" ↔
      ∀ d ∈ dirs, isFile (pathJoin plat d filename) = false := by
  induction dirs with
  | nil => simp [probe_dirs]
  | cons d rest ih =>
    by_cases hd : isFile (pathJoin plat d filename) = true
    · simp [probe_dirs, hd, pathJoin_ne_empty plat d filename hf]
    · simp only [Bool.not_eq_true] at hd
      simp [probe_dirs, hd, ih]

theorem probe_dirs_first_match (isFile : String → Bool) (plat : Platform)
    (filename : String) (dirs : List String) (i : Nat)
    (hi : i < dirs.length)
    (hmatch : isFile (pathJoin plat (dirs.getD i "") filename) = true)
    (hearlier : ∀ j, j < i → isFile (pathJoin plat (dirs.getD j "") filename) = false) :
    probe_dirs isFile plat filename dirs = pathJoin plat (dirs.getD i "") filename := by
  induction dirs generalizing i with
  | nil => exact absurd hi (Nat.not_lt_zero i)
  | cons d rest ih =>
    cases i with
    | zero =>
      simp only [List.getD_cons_zero] at hmatch ⊢
      simp [probe_dirs, hmatch]
    | succ i =>
      have h0 : isFile (pathJoin plat d filename) = false := by
        simpa using hearlier 0 (Nat.succ_pos i)
      simp only [List.getD_cons_succ] at hmatch ⊢
      simp only [probe_dirs, h0, Bool.false_eq_true, if_false]
      exact ih i (Nat.lt_of_succ_lt_succ hi) hmatch
        (fun j hj => by simpa using hearlier (j + 1) (Nat.succ_lt_succ hj))

theorem probe_dirs_sound (isFile : String → Bool) (plat : Platform)
    (filename : String) (dirs : List String)
    (h : probe_dirs isFile plat filename dirs ≠ "") :
    ∃ d ∈ dirs, probe_dirs isFile plat filename dirs = pathJoin plat d filename ∧
      isFile (pathJoin plat d filename) = true := by
  induction dirs with
  | nil => exact absurd rfl h
  | cons d rest ih =>
    by_cases hd : isFile (pathJoin plat d filename) = true
    · exact ⟨d, List.mem_cons_self d rest, by simp [probe_dirs, hd], hd⟩
    · simp only [Bool.not_eq_true] at hd
      have hrest : probe_dirs isFile plat filename rest ≠ "" := by
        simpa [probe_dirs, hd] using h
      obtain ⟨e, he, h1, h2⟩ := ih hrest
      exact ⟨e, List.mem_cons_of_mem d he, by simp [probe_dirs, hd, h1], h2⟩

theorem search_dirs_congr (plat : Platform) (e1 e2 : Env)
    (hv : get_env_var e1 (kPathVar plat) = get_env_var e2 (kPathVar plat))
    (hc : e1.cwd = e2.cwd) :
    search_dirs plat e1 = search_dirs plat e2 := by
  unfold search_dirs
  rw [hv, hc]

theorem find_library_path_congr (plat : Platform) (e1 e2 : Env) (library_name : String)
    (hv : get_env_var e1 (kPathVar plat) = get_env_var e2 (kPathVar plat))
    (hf : e1.isFile = e2.isFile) (hc : e1.cwd = e2.cwd) :
    find_library_path plat e1 library_name = find_library_path plat e2 library_name := by
  unfold find_library_path
  rw [hf, search_dirs_congr plat e1 e2 hv hc]

theorem search_dirs_not_windows (plat : Platform) (env : Env)
    (h : plat ≠ Platform.windows) :
    search_dirs plat env =
      split (get_env_var env (kPathVar plat)) (kPathSeparator plat) := by
  unfold search_dirs
  simp [h]

theorem search_dirs_windows_some (env : Env) (dir : String) (h : env.cwd = some dir) :
    search_dirs Platform.windows env =
      dir :: split (get_env_var env (kPathVar Platform.windows))
        (kPathSeparator Platform.windows) := by
  unfold search_dirs
  simp [h]

theorem search_dirs_windows_none (env : Env) (h : env.cwd = none) :
    search_dirs Platform.windows env =
      split (get_env_var env (kPathVar Platform.windows))
        (kPathSeparator Platform.windows) := by
  unfold search_dirs
  simp [h]

theorem get_env_var_unset_or_empty (env : Env) (name : String)
    (h : env.vars name = none ∨ env.vars name = some "") :
    get_env_var env name = "" := by
  unfold get_env_var
  cases h with
  | inl h => rw [h]; rfl
  | inr h => rw [h]; rfl

/-! ## Concrete environments used by the witnesses -/

/-- A Linux environment whose search path lists /a then /b, with the
candidate file present in both directories. -/
def envBoth : Env where
  vars := fun name => if name = "LD_LIBRARY_PATH" then some "/a:/b" else none
  isFile := fun p => p = "/a/libfoo.so" || p = "/b/libfoo.so"
  cwd := none

/-- A Windows environment with no variables set, a retrievable working
directory and the candidate file placed there. -/
def envWin : Env where
  vars := fun _ => none
  isFile := fun p => p = "C:\\app\\foo.dll"
  cwd := some "C:\\app"

/-- A Linux environment with every variable unset and no file anywhere. -/
def envUnset : Env where
  vars := fun _ => none
  isFile := fun _ => false
  cwd := none

/-- A Linux environment with one search directory holding the file. -/
def envA : Env where
  vars := fun name => if name = "LD_LIBRARY_PATH" then some "/a" else none
  isFile := fun p => p = "/a/libfoo.so"
  cwd := none

/-- envA with every unrelated variable changed. -/
def envB : Env where
  vars := fun name => if name = "LD_LIBRARY_PATH" then some "/a" else some "junk"
  isFile := fun p => p = "/a/libfoo.so"
  cwd := none

/-- A Windows environment whose working-directory retrieval fails. -/
def envWinNoCwd : Env where
  vars := fun name => if name = "PATH" then some "C:\\bin" else none
  isFile := fun p => p = "C:\\bin\\foo.dll"
  cwd := none

/-! ## The claims -/

/-- C1: for every library name and search-path list, if the directory at
position i contains a file matching the candidate filename and no
earlier directory does, find_library_path returns the joined path under
the directory at position i; an earlier match always beats a later one,
which is never considered. -/
theorem find_library_first_match_wins (plat : Platform) (env : Env)
    (library_name : String) (i : Nat)
    (hi : i < (search_dirs plat env).length)
    (hmatch : env.isFile (pathJoin plat ((search_dirs plat env).getD i "")
      (candidate_filename plat library_name)) = true)
    (hearlier : ∀ j, j < i → env.isFile (pathJoin plat ((search_dirs plat env).getD j "")
      (candidate_filename plat library_name)) = false) :
    find_library_path plat env library_name =
      pathJoin plat ((search_dirs plat env).getD i "")
        (candidate_filename plat library_name) :=
  probe_dirs_first_match env.isFile plat (candidate_filename plat library_name)
    (search_dirs plat env) i hi hmatch hearlier

/-- C1 witness: with matching files in both /a and /b, the path under the
earlier directory /a is returned. -/
theorem find_library_first_match_wins_witness :
    find_library_path Platform.linux envBoth "foo" = "/a/libfoo.so" := by
  have h := find_library_first_match_wins Platform.linux envBoth "foo" 0 (by decide)
    (by decide) (fun j hj => absurd hj (Nat.not_lt_zero j))
  exact h.trans (by decide)

/-- C2: the empty string is the designed and only "not found" signal: the
result is empty exactly when no directory of the search list contains
the candidate filename, so the contract distinguishes exactly two
outcomes and raises nothing. -/
theorem find_library_empty_iff_not_found (plat : Platform) (env : Env)
    (library_name : String) :
    find_library_path plat env library_name = "" ↔
      ∀ d ∈ search_dirs plat env,
        env.isFile (pathJoin plat d (candidate_filename plat library_name)) = false :=
  probe_dirs_eq_empty_iff env.isFile plat (candidate_filename plat library_name)
    (candidate_filename_ne_empty plat library_name) (search_dirs plat env)

/-- C3: the candidate filename probed in every directory is
prefix + name + extension with the fixed per-platform constants; no
format constraint is placed on the name, and the empty name yields
"lib.so" on a Linux-convention build. -/
theorem candidate_filename_spec (library_name : String) :
    (∀ plat, candidate_filename plat library_name =
      kSolibPrefix plat ++ library_name ++ kSolibExtension plat)
    ∧ kSolibPrefix Platform.linux = "lib" ∧ kSolibExtension Platform.linux = ".so"
    ∧ kSolibPrefix Platform.apple = "lib" ∧ kSolibExtension Platform.apple = ".dylib"
    ∧ kSolibPrefix Platform.windows = "" ∧ kSolibExtension Platform.windows = ".dll"
    ∧ candidate_filename Platform.linux "" = "lib.so" := by
  refine ⟨fun plat => ?_, rfl, rfl, rfl, rfl, rfl, rfl, rfl⟩
  unfold candidate_filename
  rw [String.append_assoc]

/-- C4: on a Windows-convention build the current working directory, when
retrievable, is inserted as the first search-list entry whatever the
environment holds, so it is probed first; with the search variable unset
and a matching file in the working directory, resolution succeeds with
that path. -/
theorem find_library_windows_cwd_first (env : Env) (library_name : String)
    (dir : String) (hcwd : env.cwd = some dir) :
    search_dirs Platform.windows env =
      dir :: split (get_env_var env (kPathVar Platform.windows))
        (kPathSeparator Platform.windows)
    ∧ (env.vars (kPathVar Platform.windows) = none →
        env.isFile (pathJoin Platform.windows dir
          (candidate_filename Platform.windows library_name)) = true →
        find_library_path Platform.windows env library_name =
          pathJoin Platform.windows dir (candidate_filename Platform.windows library_name)
        ∧ find_library_path Platform.windows env library_name ≠ "") := by
  constructor
  · exact search_dirs_windows_some env dir hcwd
  · intro hunset hfile
    have hempty : get_env_var env (kPathVar Platform.windows) = "" :=
      get_env_var_unset_or_empty env _ (Or.inl hunset)
    have hdirs : search_dirs Platform.windows env = [dir] := by
      rw [search_dirs_windows_some env dir hcwd, hempty]
      rfl
    have hres : find_library_path Platform.windows env library_name =
        pathJoin Platform.windows dir (candidate_filename Platform.windows library_name) := by
      unfold find_library_path
      rw [hdirs]
      simp [probe_dirs, hfile]
    refine ⟨hres, ?_⟩
    rw [hres]
    exact pathJoin_ne_empty _ _ _ (candidate_filename_ne_empty _ _)

/-- C4 witness: PATH unset, foo.dll colocated with the working directory,
resolution succeeds under the working directory. -/
theorem find_library_windows_cwd_first_witness :
    find_library_path Platform.windows envWin "foo" = "C:\\app\\foo.dll" := by
  have h := (find_library_windows_cwd_first envWin "foo" "C:\\app" rfl).2 rfl (by decide)
  exact h.1.trans (by decide)

/-- C5: the variable read is the compile-time platform constant (PATH,
DYLD_LIBRARY_PATH or LD_LIBRARY_PATH), an unset variable reads as the
empty string without raising, and the result depends on the process
environment only through that one variable, so exactly one variable is
consulted per call. -/
theorem find_library_env_var_spec (plat : Platform) :
    (kPathVar Platform.windows = "PATH"
      ∧ kPathVar Platform.apple = "DYLD_LIBRARY_PATH"
      ∧ kPathVar Platform.linux = "LD_LIBRARY_PATH")
    ∧ (∀ env : Env, env.vars (kPathVar plat) = none →
        get_env_var env (kPathVar plat) = "")
    ∧ (∀ e1 e2 : Env, ∀ library_name : String,
        e1.vars (kPathVar plat) = e2.vars (kPathVar plat) →
        e1.isFile = e2.isFile → e1.cwd = e2.cwd →
        find_library_path plat e1 library_name = find_library_path plat e2 library_name) := by
  refine ⟨⟨rfl, rfl, rfl⟩, ?_, ?_⟩
  · intro env h
    exact get_env_var_unset_or_empty env _ (Or.inl h)
  · intro e1 e2 library_name hv hf hc
    apply find_library_path_congr
    · unfold get_env_var
      rw [hv]
    · exact hf
    · exact hc

/-- C6: on a POSIX-convention build the probed list is exactly the split
of the variable's value on the platform separator (the resolver filters
nothing), and an unset or empty variable splits into no directories and
resolves to the empty string. -/
theorem find_library_posix_empty_env (plat : Platform) (env : Env)
    (library_name : String) (hplat : plat ≠ Platform.windows) :
    search_dirs plat env = split (get_env_var env (kPathVar plat)) (kPathSeparator plat)
    ∧ ((env.vars (kPathVar plat) = none ∨ env.vars (kPathVar plat) = some "") →
        split (get_env_var env (kPathVar plat)) (kPathSeparator plat) = []
        ∧ find_library_path plat env library_name = "") := by
  constructor
  · exact search_dirs_not_windows plat env hplat
  · intro h
    have hempty := get_env_var_unset_or_empty env _ h
    constructor
    · rw [hempty]
      rfl
    · unfold find_library_path
      rw [search_dirs_not_windows plat env hplat, hempty]
      rfl

/-- C6 witness: Linux build, LD_LIBRARY_PATH unset, resolution returns the
empty string over the empty directory list. -/
theorem find_library_posix_empty_env_witness :
    find_library_path Platform.linux envUnset "foo" = "" :=
  ((find_library_posix_empty_env Platform.linux envUnset "foo" (by decide)).2
    (Or.inl rfl)).2

/-- C7: find_library_path is deterministic in the external state it reads:
equal search-variable value, equal file-existence primitive and equal
working directory give equal results, there being no retained state. -/
theorem find_library_deterministic (plat : Platform) (e1 e2 : Env)
    (library_name : String)
    (hv : get_env_var e1 (kPathVar plat) = get_env_var e2 (kPathVar plat))
    (hf : e1.isFile = e2.isFile) (hc : e1.cwd = e2.cwd) :
    find_library_path plat e1 library_name = find_library_path plat e2 library_name :=
  find_library_path_congr plat e1 e2 library_name hv hf hc

/-- C7 witness: two environments equal in everything the call reads (they
differ on every unrelated variable) resolve to the same string. -/
theorem find_library_deterministic_witness :
    find_library_path Platform.linux envA "foo" =
      find_library_path Platform.linux envB "foo" :=
  find_library_deterministic Platform.linux envA envB "foo" rfl rfl rfl

/-- C8: soundness of a positive result: a non-empty result is the join of
some search-list entry with the candidate filename and the
file-existence primitive accepted exactly that path; no path the loop
did not probe successfully is ever returned. -/
theorem find_library_sound (plat : Platform) (env : Env) (library_name : String)
    (h : find_library_path plat env library_name ≠ "") :
    ∃ d ∈ search_dirs plat env,
      find_library_path plat env library_name =
        pathJoin plat d (candidate_filename plat library_name)
      ∧ env.isFile (pathJoin plat d (candidate_filename plat library_name)) = true :=
  probe_dirs_sound env.isFile plat (candidate_filename plat library_name)
    (search_dirs plat env) h

/-- C8 witness: the non-empty result over envA is the join of a search
entry with the candidate filename, accepted by the primitive. -/
theorem find_library_sound_witness :
    ∃ d ∈ search_dirs Platform.linux envA,
      find_library_path Platform.linux envA "foo" =
        pathJoin Platform.linux d (candidate_filename Platform.linux "foo")
      ∧ envA.isFile (pathJoin Platform.linux d
          (candidate_filename Platform.linux "foo")) = true :=
  find_library_sound Platform.linux envA "foo" (by decide)

/-- C9: on a Windows-convention build a failed working-directory retrieval
raises nothing: the resolver simply probes the list derived from the
environment variable alone, with no working-directory entry. -/
theorem find_library_windows_cwd_failure (env : Env) (library_name : String)
    (h : env.cwd = none) :
    search_dirs Platform.windows env =
      split (get_env_var env (kPathVar Platform.windows)) (kPathSeparator Platform.windows)
    ∧ find_library_path Platform.windows env library_name =
      probe_dirs env.isFile Platform.windows (candidate_filename Platform.windows library_name)
        (split (get_env_var env (kPathVar Platform.windows))
          (kPathSeparator Platform.windows)) := by
  have hd := search_dirs_windows_none env h
  refine ⟨hd, ?_⟩
  unfold find_library_path
  rw [hd]

/-- C9 witness: with a failing working-directory retrieval the search list
is exactly the split of PATH and the call runs on it. -/
theorem find_library_windows_cwd_failure_witness :
    search_dirs Platform.windows envWinNoCwd =
      split (get_env_var envWinNoCwd (kPathVar Platform.windows))
        (kPathSeparator Platform.windows)
    ∧ find_library_path Platform.windows envWinNoCwd "foo" =
      probe_dirs envWinNoCwd.isFile Platform.windows
        (candidate_filename Platform.windows "foo")
        (split (get_env_var envWinNoCwd (kPathVar Platform.windows))
          (kPathSeparator Platform.windows)) :=
  find_library_windows_cwd_failure envWinNoCwd "foo" rfl

/-- C10: remove_extension iterates at most n_times rounds, each deleting
the suffix that starts at the last dot; a round without a dot returns
the path unchanged at once, and n_times at most zero or a dotless path
leave the path unchanged. -/
theorem remove_extension_spec (p : String) (n : Int) :
    (n ≤ 0 → remove_extension p n = p)
    ∧ (find_last_of p.data '.' = none → remove_extension p n = p)
    ∧ (∀ k, 0 < n → find_last_of p.data '.' = some k →
        remove_extension p n = remove_extension (String.mk (p.data.take k)) (n - 1)) := by
  refine ⟨?_, ?_, ?_⟩
  · intro h
    unfold remove_extension
    rw [Int.toNat_of_nonpos h]
    rfl
  · intro h
    unfold remove_extension
    cases hn : n.toNat with
    | zero => rfl
    | succ m => simp [remove_extension_loop, h]
  · intro k hn hk
    unfold remove_extension
    have hm : n.toNat = (n - 1).toNat + 1 := by omega
    rw [hm]
    simp [remove_extension_loop, hk]
